import Mathlib

/-!
Verification of the ScreenshotPlugin browser extension.

The development shallowly embeds the two algorithmic cores of the extension:

* the background service worker (`src/background.ts`): the capture
  coordinator `handleCapture`, the bounded history store
  (`saveScreenshot`, `getScreenshotHistory`, `deleteScreenshot`) and the
  download side effect `downloadScreenshot`;
* the content script (`ContentScriptController` in the content-script
  source): the full-page tiled capture algorithm `captureFullPage` with
  its single-flight guard and canvas lifecycle.

External effects (chrome.storage, chrome.downloads, the tile provider,
DOM metrics, the system clock and locale date formatting) are passed in
as explicit parameters or injected outcomes, so every function is a pure,
executable Lean definition mirroring the TypeScript control flow.
-/

namespace ScreenshotPlugin

/-- A stored screenshot record (`interface ScreenshotData` in
`background.ts`).  `timestamp` is epoch milliseconds. -/
structure ScreenshotData where
  id : String
  dataUrl : String
  timestamp : Nat
  filename : String
  url : String
  title : String
deriving Repr, DecidableEq

/-- The history cap hard-coded in `saveScreenshot`
(`background.ts` line 137: `if (screenshots.length > 50)`). -/
def maxHistory : Nat := 50

/-- Response shape of `handleCapture`
(`{ success, dataUrl?, filename?, error? }`). -/
structure CaptureResponse where
  success : Bool
  dataUrl : Option String
  filename : Option String
  error : Option String
deriving Repr, DecidableEq

/-- Response shape of `deleteScreenshot` (`{ success, error? }`). -/
structure SimpleResponse where
  success : Bool
  error : Option String
deriving Repr, DecidableEq

/-- Response shape of `getScreenshotHistory`
(`{ success, screenshots?, error? }`). -/
structure HistoryResponse where
  success : Bool
  screenshots : Option (List ScreenshotData)
  error : Option String
deriving Repr, DecidableEq

/-- The failure response built in the `catch` blocks of `background.ts`
(`{ success: false, error }`; no `dataUrl`/`filename` field). -/
def failureResponse (msg : String) : CaptureResponse :=
  { success := false, dataUrl := none, filename := none, error := some msg }

/-- The list transformation inside `saveScreenshot`
(`background.ts` lines 134-139): `screenshots.unshift(screenshot)`
followed by `if (screenshots.length > 50) screenshots.splice(50)`.
`splice(50)` keeps the first 50 elements, i.e. `take 50`. -/
def insertCapped (screenshot : ScreenshotData) (screenshots : List ScreenshotData) :
    List ScreenshotData :=
  let screenshots := screenshot :: screenshots
  if screenshots.length > maxHistory then screenshots.take maxHistory else screenshots

/-- Embedding of `saveScreenshot` (`background.ts` lines 129-146): reads the stored
list, prepends the new record, caps the length at 50, and writes the
list back.  `storeOk = false` injects a `chrome.storage.local` failure,
which the source catches, logs, and rethrows as
`Error('Failed to save screenshot to storage')`; on failure nothing is
persisted.  On success the result carries the newly stored list. -/
def saveScreenshot (storeOk : Bool) (screenshot : ScreenshotData)
    (screenshots : List ScreenshotData) : Except String (List ScreenshotData) :=
  if storeOk then Except.ok (insertCapped screenshot screenshots)
  else Except.error "Failed to save screenshot to storage"

/-- Embedding of `downloadScreenshot` (`background.ts` lines 149-160):
`chrome.downloads.download`, with a failure caught, logged, and
rethrown as `Error('Failed to download screenshot')`.
`downloadOk = false` injects the failure. -/
def downloadScreenshot (downloadOk : Bool) : Except String Unit :=
  if downloadOk then Except.ok ()
  else Except.error "Failed to download screenshot"

/-- Embedding of `getScreenshotHistory` (`background.ts` lines 163-181): returns the
stored list, or a failure response when the storage read throws (the
injected `storeFault` carries the thrown message). -/
def getScreenshotHistory (storeFault : Option String)
    (screenshots : List ScreenshotData) : HistoryResponse :=
  match storeFault with
  | some msg => { success := false, screenshots := none, error := some msg }
  | none => { success := true, screenshots := some screenshots, error := none }

/-- Embedding of `deleteScreenshot` (`background.ts` lines 184-204): filters out every
record whose id equals the given id (`screenshots.filter(s => s.id !== id)`)
and writes the filtered list back.  `storeFault` injects a storage
failure (read or write-back), in which case nothing is persisted and the
caught error's message is returned. -/
def deleteScreenshot (storeFault : Option String) ( sid : String)
    (screenshots : List ScreenshotData) : SimpleResponse × List ScreenshotData :=
  match storeFault with
  | some msg => ({ success := false, error := some msg }, screenshots)
  | none =>
    ({ success := true, error := none },
      screenshots.filter (fun s => s.id != sid))

/-- A browser tab as consumed by `handleCapture` (`chrome.tabs.Tab`
restricted to the fields the source reads). -/
structure Tab where
  id : Option Nat
  windowId : Nat
  url : Option String
  title : Option String
deriving Repr, DecidableEq

/-- Capture mode (`'visible' | 'full'`). -/
inductive CaptureMode
  | visible
  | full
deriving Repr, DecidableEq

/-- Content-script reply to the `captureFullPage` message
(`{ success, dataUrl?, error? }`). -/
structure FullPageResponse where
  success : Bool
  dataUrl : String
  error : Option String
deriving Repr, DecidableEq

/-- JavaScript `a || b` on an optional string: `undefined` and the empty
string are falsy. -/
def jsOr (s : Option String) (dflt : String) : String :=
  match s with
  | some v => if v = "" then dflt else v
  | none => dflt

/-- The image-acquisition step of `handleCapture` (`background.ts`
lines 73-92): `visible` mode calls `chrome.tabs.captureVisibleTab`
(outcome injected as `visibleResult`); `full` mode messages the content
script and throws `response.error || 'Full page capture failed'` when
the reply is unsuccessful. -/
def acquireDataUrl (mode : CaptureMode) (visibleResult : Except String String)
    (fullResponse : FullPageResponse) : Except String String :=
  match mode with
  | CaptureMode.visible => visibleResult
  | CaptureMode.full =>
    if fullResponse.success then Except.ok fullResponse.dataUrl
    else Except.error (jsOr fullResponse.error "Full page capture failed")

/-- The filename built at `background.ts` line 97:
`screenshot_YYYYMMDD_HHMM_{timestamp}.png`.  The locale/timezone
dependent date part (`new Date(timestamp)` formatting) is supplied by
the environment as `fmtDate`. -/
def mkFilename (fmtDate : Nat → String) (timestamp : Nat) : String :=
  "screenshot_" ++ fmtDate timestamp ++ "_" ++ toString timestamp ++ ".png"

/-- The `ScreenshotData` literal built at `background.ts` lines 100-107. -/
def mkRecord (dataUrl : String) (timestamp : Nat) (fmtDate : Nat → String)
    (t : Tab) : ScreenshotData :=
  { id := "screenshot_" ++ toString timestamp
    dataUrl := dataUrl
    timestamp := timestamp
    filename := mkFilename fmtDate timestamp
    url := t.url.getD ""
    title := t.title.getD "" }

/-- Embedding of `handleCapture` (`background.ts` lines 64-126).  Checks the tab
(`!tab?.id` is truthy for a missing tab, a missing id, and id `0`),
acquires the image, builds the record, persists it via `saveScreenshot`,
triggers the download, and returns the response; any thrown error is
caught and returned as `{ success: false, error }`.  Returns the
response together with the stored list after the call (unchanged
whenever persistence did not commit). -/
def handleCapture (mode : CaptureMode) (tab : Option Tab)
    (visibleResult : Except String String) (fullResponse : FullPageResponse)
    (storeOk downloadOk : Bool) (timestamp : Nat) (fmtDate : Nat → String)
    (screenshots : List ScreenshotData) :
    CaptureResponse × List ScreenshotData :=
  match tab with
  | none => (failureResponse "No active tab found", screenshots)
  | some t =>
    match t.id with
    | none => (failureResponse "No active tab found", screenshots)
    | some i =>
      if i = 0 then (failureResponse "No active tab found", screenshots)
      else
        match acquireDataUrl mode visibleResult fullResponse with
        | Except.error msg => (failureResponse msg, screenshots)
        | Except.ok dataUrl =>
          let filename := mkFilename fmtDate timestamp
          let record := mkRecord dataUrl timestamp fmtDate t
          match saveScreenshot storeOk record screenshots with
          | Except.error msg => (failureResponse msg, screenshots)
          | Except.ok newScreenshots =>
            match downloadScreenshot downloadOk with
            | Except.error msg => (failureResponse msg, newScreenshots)
            | Except.ok _ =>
              ({ success := true, dataUrl := some dataUrl,
                 filename := some filename, error := none }, newScreenshots)

/-- A concrete record used to evaluate the history-store operations. -/
def sampleRecord : ScreenshotData :=
  { id := "screenshot_1", dataUrl := "d", timestamp := 1,
    filename := "f", url := "", title := "" }

/-- A concrete tab used to evaluate `handleCapture`. -/
def sampleTab : Tab :=
  { id := some 1, windowId := 1, url := some "https://example.com",
    title := some "Example" }

/-- A concrete date formatter used to evaluate `handleCapture`. -/
def sampleFmtDate : Nat → String := fun _ => "20260101_0000"

/-! ### Content script: full-page tiled capture -/

/-- The DOM size signals read by `captureFullPage` (content script
lines 50-67): the five height and five width box metrics of
`document.body` / `document.documentElement`, and the viewport extent
`window.innerHeight` / `window.innerWidth`. -/
structure PageMetrics where
  bodyScrollHeight : Nat
  bodyOffsetHeight : Nat
  docClientHeight : Nat
  docScrollHeight : Nat
  docOffsetHeight : Nat
  bodyScrollWidth : Nat
  bodyOffsetWidth : Nat
  docClientWidth : Nat
  docScrollWidth : Nat
  docOffsetWidth : Nat
  innerHeight : Nat
  innerWidth : Nat
deriving Repr, DecidableEq

/-- The `pageHeight` measurement (content script lines 50-56): the maximum of the five
height signals. -/
def pageHeightOf (m : PageMetrics) : Nat :=
  max (max (max (max m.bodyScrollHeight m.bodyOffsetHeight) m.docClientHeight)
    m.docScrollHeight) m.docOffsetHeight

/-- The `pageWidth` measurement (content script lines 58-64): the maximum of the five
width signals. -/
def pageWidthOf (m : PageMetrics) : Nat :=
  max (max (max (max m.bodyScrollWidth m.bodyOffsetWidth) m.docClientWidth)
    m.docScrollWidth) m.docOffsetWidth

/-- The row count `rows = Math.ceil(pageHeight / viewportHeight)` (content script
line 84), written as Nat ceiling division; agrees with `Math.ceil` for
a positive viewport height. -/
def rowsOf (m : PageMetrics) : Nat :=
  (pageHeightOf m + m.innerHeight - 1) / m.innerHeight

/-- The column count `cols = Math.ceil(pageWidth / viewportWidth)` (content script
line 85). -/
def colsOf (m : PageMetrics) : Nat :=
  (pageWidthOf m + m.innerWidth - 1) / m.innerWidth

/-- The row-major `(row, col)` iteration of the nested loops at content
script lines 88-89: `row` outer, `col` inner, both ascending from 0. -/
def tileGrid (rows cols : Nat) : List (Nat × Nat) :=
  (List.range rows).flatMap (fun row => (List.range cols).map (fun col => (row, col)))

/-- The scroll/draw offsets `(x, y) = (col * viewportWidth,
row * viewportHeight)` (content script lines 90-91), in capture order;
each offset is both the scroll target (line 94) and the canvas draw
position (line 103). -/
def tileOffsets (m : PageMetrics) : List (Nat × Nat) :=
  (tileGrid (rowsOf m) (colsOf m)).map
    (fun rc => (rc.2 * m.innerWidth, rc.1 * m.innerHeight))

/-- Outcome of one tile iteration, injected by the environment:
`ok` is a successful `captureVisibleArea` plus `drawImageToCanvas`;
`captureError` is a rejected capture (the background's error message);
`drawError` is an image-load failure in `drawImageToCanvas`. -/
inductive TileOutcome
  | ok (dataUrl : String)
  | captureError (msg : String)
  | drawError
deriving Repr, DecidableEq

/-- The environment of one `captureFullPage` invocation: the DOM
metrics, whether `canvas.getContext('2d')` returns a context, and the
outcome of the k-th tile iteration. -/
structure CaptureInput where
  metrics : PageMetrics
  ctxOk : Bool
  tiles : Nat → TileOutcome

/-- The mutable state touched by the content script: the
`isCapturing` single-flight flag, the held canvas (its pixel
dimensions; `none` when no canvas is referenced), and the page scroll
position. -/
structure CaptureState where
  isCapturing : Bool
  canvas : Option (Nat × Nat)
  scrollX : Nat
  scrollY : Nat
deriving Repr, DecidableEq

/-- The encoded image produced by `canvas.toDataURL`, abstracted to its
pixel dimensions (`toDataURL` encodes the whole canvas). -/
structure EncodedImage where
  width : Nat
  height : Nat
deriving Repr, DecidableEq

/-- Observable outcome of one `captureFullPage` invocation: the
returned value or thrown error, the state after the invocation, the
dimensions of the canvas allocated during the session (`none` if none
was allocated), and the ordered offsets of the tiles attempted. -/
structure CaptureOutput where
  result : Except String EncodedImage
  state : CaptureState
  canvasDims : Option (Nat × Nat)
  trace : List (Nat × Nat)

/-- The message thrown at content script line 43 when a capture is
already in progress. -/
def alreadyCapturingMsg : String := "截图正在进行中，请稍候"

/-- The message thrown at content script line 76 when no 2d context is
available. -/
def ctxErrorMsg : String := "无法创建 Canvas 上下文"

/-- The message rejected at content script line 151 when the tile image
fails to load. -/
def drawErrorMsg : String := "图片加载失败"

/-- The sequential scroll → wait → capture → draw loop (content script
lines 88-105).  Processes the offsets in order; each iteration scrolls
to its offset, then either succeeds or aborts the loop with the error
of the failing step.  Returns the loop outcome, the scroll position
after the loop, and the offsets actually attempted. -/
def runTiles (tiles : Nat → TileOutcome) :
    List (Nat × Nat) → Nat → Nat × Nat →
      Except String Unit × (Nat × Nat) × List (Nat × Nat)
  | [], _, scroll => (Except.ok (), scroll, [])
  | (x, y) :: rest, k, _ =>
    match tiles k with
    | TileOutcome.ok _ =>
      let r := runTiles tiles rest (k + 1) (x, y)
      (r.1, r.2.1, (x, y) :: r.2.2)
    | TileOutcome.captureError msg => (Except.error msg, (x, y), [(x, y)])
    | TileOutcome.drawError => (Except.error drawErrorMsg, (x, y), [(x, y)])

/-- Embedding of `captureFullPage` (content script lines 41-124).  Mirrors the
source control flow: reject when `isCapturing` is set; set the flag;
measure the page; allocate the canvas; fail if no 2d context; record
the original scroll offset; run the tile loop; on success restore the
scroll offset and encode the canvas.  The `finally` block (lines
116-123) clears `isCapturing` and releases the canvas on every exit
path of the session; note that the scroll restore (line 108) is on the
success path only, so a failed loop leaves the scroll at the failing
tile's offset. -/
def captureFullPage (inp : CaptureInput) (st : CaptureState) : CaptureOutput :=
  if st.isCapturing then
    { result := Except.error alreadyCapturingMsg, state := st,
      canvasDims := none, trace := [] }
  else
    let m := inp.metrics
    let pageHeight := pageHeightOf m
    let pageWidth := pageWidthOf m
    if inp.ctxOk = false then
      { result := Except.error ctxErrorMsg,
        state := { isCapturing := false, canvas := none,
                   scrollX := st.scrollX, scrollY := st.scrollY },
        canvasDims := some (pageWidth, pageHeight), trace := [] }
    else
      let originalScrollX := st.scrollX
      let originalScrollY := st.scrollY
      match runTiles inp.tiles (tileOffsets m) 0 (st.scrollX, st.scrollY) with
      | (Except.error msg, finalScroll, trace) =>
        { result := Except.error msg,
          state := { isCapturing := false, canvas := none,
                     scrollX := finalScroll.1, scrollY := finalScroll.2 },
          canvasDims := some (pageWidth, pageHeight), trace := trace }
      | (Except.ok _, _, trace) =>
        { result := Except.ok { width := pageWidth, height := pageHeight },
          state := { isCapturing := false, canvas := none,
                     scrollX := originalScrollX, scrollY := originalScrollY },
          canvasDims := some (pageWidth, pageHeight), trace := trace }

/-- Metrics of a page whose body/document box metrics all agree:
width `w`, height `h`, viewport `vw × vh`. -/
def uniformMetrics (w h vw vh : Nat) : PageMetrics :=
  { bodyScrollHeight := h, bodyOffsetHeight := h, docClientHeight := h,
    docScrollHeight := h, docOffsetHeight := h,
    bodyScrollWidth := w, bodyOffsetWidth := w, docClientWidth := w,
    docScrollWidth := w, docOffsetWidth := w,
    innerHeight := vh, innerWidth := vw }

/-- A tile provider for which every tile succeeds. -/
def allTilesOk : Nat → TileOutcome := fun _ => TileOutcome.ok "tile"

/-- A tile provider whose second tile capture is rejected. -/
def failSecondTile : Nat → TileOutcome :=
  fun k => if k = 0 then TileOutcome.ok "tile"
           else TileOutcome.captureError "tile capture failed"

/-- The idle content-script state: not capturing, no canvas, scrolled
to the origin. -/
def idleState : CaptureState :=
  { isCapturing := false, canvas := none, scrollX := 0, scrollY := 0 }

/-- A 1000×1000 page viewed through a 400×400 viewport, every tile
succeeding. -/
def inputGrid9 : CaptureInput :=
  { metrics := uniformMetrics 1000 1000 400 400, ctxOk := true,
    tiles := allTilesOk }

/-- A 1920×3000 page viewed through a 1920×1000 viewport, every tile
succeeding. -/
def inputTall : CaptureInput :=
  { metrics := uniformMetrics 1920 3000 1920 1000, ctxOk := true,
    tiles := allTilesOk }

/-- A 1000×1000 page viewed through a 400×400 viewport whose second
tile capture fails. -/
def inputFailing : CaptureInput :=
  { metrics := uniformMetrics 1000 1000 400 400, ctxOk := true,
    tiles := failSecondTile }

end ScreenshotPlugin

namespace ScreenshotPlugin

/-- C1: `insert` (`saveScreenshot`) prepends the record at the front of
the stored sequence, truncates from the tail down to exactly
`maxHistory` (= 50) entries when the resulting length exceeds the cap,
and otherwise keeps the whole sequence; hence after a successful insert
the stored sequence has length ≤ `maxHistory`, its length is
`min (old length + 1) maxHistory`, and the inserted record is first
(so an immediate listing shows it first). -/
theorem saveScreenshot_bounded_prepend (r : ScreenshotData)
    (l newList : List ScreenshotData)
    (h : saveScreenshot true r l = Except.ok newList) :
    newList.head? = some r ∧
    newList.length ≤ maxHistory ∧
    newList.length = min (l.length + 1) maxHistory ∧
    newList = (r :: l).take maxHistory := by
  have hnew : newList = insertCapped r l := by
    simpa [saveScreenshot] using h.symm
  have htake : newList = (r :: l).take maxHistory := by
    rw [hnew]
    by_cases hlen : (r :: l).length > maxHistory
    · simp [insertCapped, hlen]
    · rw [List.take_of_length_le (by simp at hlen ⊢; omega)]
      simp only [insertCapped]
      rw [if_neg hlen]
  have hfifty : maxHistory = 49 + 1 := rfl
  have hcons : (r :: l).take maxHistory = r :: l.take 49 := by
    rw [hfifty, List.take_succ_cons]
  refine ⟨?_, ?_, ?_, htake⟩
  · rw [htake, hcons]
    rfl
  · rw [htake, List.length_take]
    exact Nat.min_le_left _ _
  · rw [htake, List.length_take, List.length_cons, Nat.min_comm]

/-- Witness for C1 at a concrete input: inserting into an empty store
yields the one-record store with the record first. -/
theorem saveScreenshot_bounded_prepend_witness :
    saveScreenshot true sampleRecord [] = Except.ok [sampleRecord] ∧
    ([sampleRecord] : List ScreenshotData).head? = some sampleRecord ∧
    ([sampleRecord] : List ScreenshotData).length ≤ maxHistory := by
  have h := saveScreenshot_bounded_prepend sampleRecord [] [sampleRecord] rfl
  exact ⟨rfl, h.1, h.2.1⟩

/-- C8: deleting a non-existent id succeeds and leaves the stored
sequence unchanged (same records, same order). -/
theorem deleteScreenshot_absent_id ( sid : String)
    (l : List ScreenshotData) (h : sid ∉ l.map ScreenshotData.id) :
    deleteScreenshot none sid l = ({ success := true, error := none }, l) := by
  unfold deleteScreenshot
  have hfil : l.filter (fun s => s.id != sid) = l := by
    rw [List.filter_eq_self]
    intro a ha
    simp only [bne_iff_ne, ne_eq]
    intro heq
    exact h (heq ▸ List.mem_map_of_mem ScreenshotData.id ha)
  rw [hfil]

/-- Witness for C8 at a concrete input. -/
theorem deleteScreenshot_absent_id_witness :
    "nope" ∉ ([sampleRecord] : List ScreenshotData).map ScreenshotData.id ∧
    deleteScreenshot none "nope" [sampleRecord] =
      ({ success := true, error := none }, [sampleRecord]) := by
  refine ⟨by decide, ?_⟩
  exact deleteScreenshot_absent_id "nope" [sampleRecord] (by decide)

/-- C10: `deleteById` removes every record whose id equals the given id:
the resulting stored sequence is a sublist of the original (relative
order preserved), a record is in the result exactly when it was stored
and its id differs from the given id, and multiplicities of the
surviving records are preserved while records carrying the deleted id
are removed entirely. -/
theorem deleteScreenshot_removes_all ( sid : String) (l : List ScreenshotData) :
    (deleteScreenshot none sid l).2.Sublist l ∧
    (∀ s : ScreenshotData,
      s ∈ (deleteScreenshot none sid l).2 ↔ s ∈ l ∧ s.id ≠ sid) ∧
    (∀ s : ScreenshotData,
      (deleteScreenshot none sid l).2.count s =
        if s.id = sid then 0 else l.count s) := by
  refine ⟨?_, ?_, ?_⟩
  · exact List.filter_sublist l
  · intro s
    simp [deleteScreenshot, List.mem_filter]
  · intro s
    simp only [deleteScreenshot]
    by_cases hid : s.id = sid
    · rw [if_pos hid, List.count_eq_zero]
      intro hmem
      rw [List.mem_filter] at hmem
      exact absurd hid (by simpa using hmem.2)
    · rw [if_neg hid, List.count_filter (by simpa using hid)]

/-- Unfolding `tileGrid` one row at a time. -/
theorem tileGrid_succ (n cols : Nat) :
    tileGrid (n + 1) cols =
      tileGrid n cols ++ (List.range cols).map (fun col => (n, col)) := by
  unfold tileGrid
  rw [List.range_succ, List.flatMap_append]
  simp

/-- The grid visits `rows * cols` pairs. -/
theorem tileGrid_length (rows cols : Nat) :
    (tileGrid rows cols).length = rows * cols := by
  induction rows with
  | zero => simp [tileGrid]
  | succ n ih =>
    rw [tileGrid_succ, List.length_append, ih, List.length_map,
      List.length_range]
    ring

/-- The k-th pair visited by the grid, in row-major order. -/
theorem tileGrid_getElem? (rows cols k : Nat) (h : k < rows * cols) :
    (tileGrid rows cols)[k]? = some (k / cols, k % cols) := by
  induction rows with
  | zero => omega
  | succ n ih =>
    have hcols : 0 < cols := by
      rcases Nat.eq_zero_or_pos cols with h0 | h0
      · subst h0; omega
      · exact h0
    rw [tileGrid_succ, List.getElem?_append, tileGrid_length]
    by_cases hk : k < n * cols
    · rw [if_pos hk]
      exact ih hk
    · rw [if_neg hk]
      have hs : (n + 1) * cols = n * cols + cols := by ring
      have hj : k - n * cols < cols := by omega
      rw [List.getElem?_map, List.getElem?_range hj]
      have hdiv : k / cols = n := by
        conv_lhs => rw [show k = (k - n * cols) + n * cols by omega]
        rw [Nat.add_mul_div_right _ _ hcols, Nat.div_eq_of_lt hj]
        omega
      have hmod : k % cols = k - n * cols := by
        conv_lhs => rw [show k = (k - n * cols) + n * cols by omega]
        rw [Nat.add_mul_mod_self_right, Nat.mod_eq_of_lt hj]
      simp [hdiv, hmod]

/-- When every tile iteration succeeds, the loop succeeds and attempts
exactly the given offsets, in order. -/
theorem runTiles_all_ok (tiles : Nat → TileOutcome)
    (hok : ∀ k, ∃ d, tiles k = TileOutcome.ok d) :
    ∀ (offs : List (Nat × Nat)) (k : Nat) (s : Nat × Nat),
      (runTiles tiles offs k s).1 = Except.ok () ∧
      (runTiles tiles offs k s).2.2 = offs := by
  intro offs
  induction offs with
  | nil => intro k s; exact ⟨rfl, rfl⟩
  | cons p rest ih =>
    intro k s
    obtain ⟨x, y⟩ := p
    obtain ⟨d, hd⟩ := hok k
    simp only [runTiles, hd]
    exact ⟨(ih (k + 1) (x, y)).1, by rw [(ih (k + 1) (x, y)).2]⟩

/-- A failing loop has attempted at least one tile. -/
theorem runTiles_error_trace_ne_nil (tiles : Nat → TileOutcome)
    (offs : List (Nat × Nat)) (k : Nat) (s : Nat × Nat) (msg : String)
    (h : (runTiles tiles offs k s).1 = Except.error msg) :
    (runTiles tiles offs k s).2.2 ≠ [] := by
  cases offs with
  | nil => simp [runTiles] at h
  | cons p rest =>
    obtain ⟨x, y⟩ := p
    cases htk : tiles k <;> simp [runTiles, htk]

/-- A fully successful session, as one structure equation: the result
is the full-page-sized image, the flag is cleared, the canvas is
released, the scroll is restored, the canvas was allocated at the page
extent, and the trace is the full row-major offset schedule. -/
theorem captureFullPage_ok_run (inp : CaptureInput) (st : CaptureState)
    (hbusy : st.isCapturing = false) (hctx : inp.ctxOk = true)
    (hok : ∀ k, ∃ d, inp.tiles k = TileOutcome.ok d) :
    captureFullPage inp st =
      { result := Except.ok { width := pageWidthOf inp.metrics,
                              height := pageHeightOf inp.metrics },
        state := { isCapturing := false, canvas := none,
                   scrollX := st.scrollX, scrollY := st.scrollY },
        canvasDims := some (pageWidthOf inp.metrics, pageHeightOf inp.metrics),
        trace := tileOffsets inp.metrics } := by
  have hrun := runTiles_all_ok inp.tiles hok (tileOffsets inp.metrics) 0
    (st.scrollX, st.scrollY)
  rcases hr : runTiles inp.tiles (tileOffsets inp.metrics) 0
      (st.scrollX, st.scrollY) with ⟨res, fs, tr⟩
  rw [hr] at hrun
  simp only at hrun
  obtain ⟨h1, h2⟩ := hrun
  subst h1
  subst h2
  simp [captureFullPage, hbusy, hctx, hr]

/-- Ceiling-division bounds: for a positive tile size `v`, the cover
`(e + v - 1) / v` tiles of size `v` reach at least `e` and overshoot by
less than one tile. -/
theorem ceil_cover_bounds (e v : Nat) (hv : 0 < v) :
    e ≤ v * ((e + v - 1) / v) ∧ v * ((e + v - 1) / v) < e + v := by
  have hdm := Nat.div_add_mod (e + v - 1) v
  have hr : (e + v - 1) % v < v := Nat.mod_lt _ hv
  omega

/-- C2: for every page extent and viewport extent (viewport positive),
a successful full-page capture attempts exactly
`ceil(pageHeight/viewportHeight) * ceil(pageWidth/viewportWidth)` tiles
(`rowsOf`/`colsOf` are the Nat ceilings: the covered span reaches the
page extent and overshoots by less than one viewport), iterating in
row-major order: the k-th tile scrolls to, and draws at, the offset
`((k % cols) * viewportWidth, (k / cols) * viewportHeight)`, i.e.
row `k / cols`, column `k % cols`, rows outer and ascending. -/
theorem captureFullPage_tile_schedule (inp : CaptureInput) (st : CaptureState)
    (hbusy : st.isCapturing = false) (hctx : inp.ctxOk = true)
    (hok : ∀ k, ∃ d, inp.tiles k = TileOutcome.ok d)
    (hvw : 0 < inp.metrics.innerWidth) (hvh : 0 < inp.metrics.innerHeight) :
    pageHeightOf inp.metrics ≤ inp.metrics.innerHeight * rowsOf inp.metrics ∧
    inp.metrics.innerHeight * rowsOf inp.metrics <
      pageHeightOf inp.metrics + inp.metrics.innerHeight ∧
    pageWidthOf inp.metrics ≤ inp.metrics.innerWidth * colsOf inp.metrics ∧
    inp.metrics.innerWidth * colsOf inp.metrics <
      pageWidthOf inp.metrics + inp.metrics.innerWidth ∧
    (captureFullPage inp st).trace.length =
      rowsOf inp.metrics * colsOf inp.metrics ∧
    (∀ k, k < rowsOf inp.metrics * colsOf inp.metrics →
      (captureFullPage inp st).trace[k]? =
        some ((k % colsOf inp.metrics) * inp.metrics.innerWidth,
              (k / colsOf inp.metrics) * inp.metrics.innerHeight)) := by
  obtain ⟨hh1, hh2⟩ :=
    ceil_cover_bounds (pageHeightOf inp.metrics) inp.metrics.innerHeight hvh
  obtain ⟨hw1, hw2⟩ :=
    ceil_cover_bounds (pageWidthOf inp.metrics) inp.metrics.innerWidth hvw
  rw [captureFullPage_ok_run inp st hbusy hctx hok]
  refine ⟨hh1, hh2, hw1, hw2, ?_, ?_⟩
  · simp [tileOffsets, tileGrid_length]
  · intro k hk
    simp only [tileOffsets]
    rw [List.getElem?_map, tileGrid_getElem? _ _ _ hk]
    rfl

/-- Witness for C2: a 1000×1000 page with a 400×400 viewport yields
exactly 9 tiles, scrolled/drawn in row-major order. -/
theorem captureFullPage_tile_schedule_witness :
    (captureFullPage inputGrid9 idleState).trace.length = 9 ∧
    (captureFullPage inputGrid9 idleState).trace =
      [(0, 0), (400, 0), (800, 0), (0, 400), (400, 400), (800, 400),
       (0, 800), (400, 800), (800, 800)] := by
  have h := captureFullPage_tile_schedule inputGrid9 idleState rfl rfl
    (fun _ => ⟨"tile", rfl⟩) (by decide) (by decide)
  exact ⟨h.2.2.2.2.1, by rfl⟩

/-- C3 counterexample: the session whose second tile capture fails
finishes (it returns the tile error and clears the busy flag), yet the
scroll position afterwards is the failing tile's offset `(400, 0)`, not
the `(0, 0)` recorded at session start: the scroll restore is on the
success path only, not in the `finally` block. -/
theorem captureFullPage_scroll_not_restored_cex :
    (captureFullPage inputFailing idleState).result =
      Except.error "tile capture failed" ∧
    (captureFullPage inputFailing idleState).state.isCapturing = false ∧
    idleState.scrollX = 0 ∧ idleState.scrollY = 0 ∧
    (captureFullPage inputFailing idleState).state.scrollX = 400 ∧
    (captureFullPage inputFailing idleState).state.scrollX ≠
      idleState.scrollX := by
  exact ⟨rfl, rfl, rfl, rfl, rfl, by decide⟩

/-- C3 amended: when a full-page capture invocation completes
successfully, the page's scroll position after the session equals the
scroll position recorded at session start; a session that fails after
scrolling has begun leaves the scroll at the failing tile's offset. -/
theorem captureFullPage_restores_scroll_on_success (inp : CaptureInput)
    (st : CaptureState) (img : EncodedImage)
    (h : (captureFullPage inp st).result = Except.ok img) :
    (captureFullPage inp st).state.scrollX = st.scrollX ∧
    (captureFullPage inp st).state.scrollY = st.scrollY := by
  by_cases hb : st.isCapturing = true
  · exfalso
    simp [captureFullPage, hb] at h
  · by_cases hc : inp.ctxOk = false
    · exfalso
      simp [captureFullPage, hb, hc] at h
    · rcases hr : runTiles inp.tiles (tileOffsets inp.metrics) 0
          (st.scrollX, st.scrollY) with ⟨res, fs, tr⟩
      cases res with
      | error msg =>
        exfalso
        simp [captureFullPage, hb, hc, hr] at h
      | ok u =>
        simp [captureFullPage, hb, hc, hr]

/-- Witness for the amended C3 at a concrete successful run. -/
theorem captureFullPage_restores_scroll_on_success_witness :
    (captureFullPage inputGrid9 idleState).result =
      Except.ok { width := 1000, height := 1000 } ∧
    (captureFullPage inputGrid9 idleState).state.scrollX =
      idleState.scrollX ∧
    (captureFullPage inputGrid9 idleState).state.scrollY =
      idleState.scrollY := by
  have h := captureFullPage_restores_scroll_on_success inputGrid9 idleState
    { width := 1000, height := 1000 } rfl
  exact ⟨rfl, h.1, h.2⟩

/-- C4: for every invocation of `captureFullPage` that enters a session
(the busy flag is clear at invocation), every exit path — successful
return, context-creation failure, tile-capture failure, drawing
failure — leaves the busy flag false and the canvas reference released
(`finally` block, content script lines 116-123).  The rejected-call
path (busy flag set by an in-flight session) modifies nothing: the flag
stays owned by, and is cleared by, the session that set it. -/
theorem captureFullPage_cleanup (inp : CaptureInput) (st : CaptureState)
    (hbusy : st.isCapturing = false) :
    (captureFullPage inp st).state.isCapturing = false ∧
    (captureFullPage inp st).state.canvas = none := by
  by_cases hc : inp.ctxOk = false
  · simp [captureFullPage, hbusy, hc]
  · rcases hr : runTiles inp.tiles (tileOffsets inp.metrics) 0
        (st.scrollX, st.scrollY) with ⟨res, fs, tr⟩
    cases res <;> simp [captureFullPage, hbusy, hc, hr]

/-- Witness for C4 on a failing session: even though the second tile
capture fails, the flag is cleared and the canvas is released. -/
theorem captureFullPage_cleanup_witness :
    idleState.isCapturing = false ∧
    (captureFullPage inputFailing idleState).result =
      Except.error "tile capture failed" ∧
    (captureFullPage inputFailing idleState).state.isCapturing = false ∧
    (captureFullPage inputFailing idleState).state.canvas = none := by
  have h := captureFullPage_cleanup inputFailing idleState rfl
  exact ⟨rfl, rfl, h.1, h.2⟩

/-- C5: an invocation fails with the already-in-progress error while
touching nothing (state unchanged, no tile attempted) exactly when the
busy flag is set at invocation: concurrent calls are rejected, never
queued or serialized. -/
theorem captureFullPage_single_flight (inp : CaptureInput) (st : CaptureState) :
    ((captureFullPage inp st).result = Except.error alreadyCapturingMsg ∧
      (captureFullPage inp st).state = st ∧
      (captureFullPage inp st).trace = []) ↔ st.isCapturing = true := by
  constructor
  · rintro ⟨h1, -, h3⟩
    by_contra hb
    by_cases hc : inp.ctxOk = false
    · simp [captureFullPage, hb, hc] at h1
      exact absurd h1 (by decide)
    · rcases hr : runTiles inp.tiles (tileOffsets inp.metrics) 0
          (st.scrollX, st.scrollY) with ⟨res, fs, tr⟩
      cases res with
      | ok u => simp [captureFullPage, hb, hc, hr] at h1
      | error msg =>
        simp only [captureFullPage, hb, hc, hr] at h3
        have hne := runTiles_error_trace_ne_nil inp.tiles
          (tileOffsets inp.metrics) 0 (st.scrollX, st.scrollY) msg
          (by rw [hr])
        rw [hr] at hne
        simp only at hne h3
        exact hne h3
  · intro h
    refine ⟨?_, ?_, ?_⟩ <;> simp [captureFullPage, h]

/-- C9: a successful full-page capture allocates the compositing canvas
at exactly the measured page extent — each axis the maximum over the
body/document box metrics (`pageWidthOf`/`pageHeightOf`) — and the
final encoded image has exactly those dimensions. -/
theorem captureFullPage_page_extent (inp : CaptureInput) (st : CaptureState)
    (hbusy : st.isCapturing = false) (hctx : inp.ctxOk = true)
    (hok : ∀ k, ∃ d, inp.tiles k = TileOutcome.ok d) :
    (captureFullPage inp st).canvasDims =
      some (pageWidthOf inp.metrics, pageHeightOf inp.metrics) ∧
    (captureFullPage inp st).result =
      Except.ok { width := pageWidthOf inp.metrics,
                  height := pageHeightOf inp.metrics } := by
  rw [captureFullPage_ok_run inp st hbusy hctx hok]
  exact ⟨rfl, rfl⟩

/-- Witness for C9: a 1920×3000 page with a 1920×1000 viewport yields 3
tiles at offsets (0,0), (0,1000), (0,2000), a 1920×3000 canvas and
final image, and a restored scroll offset. -/
theorem captureFullPage_page_extent_witness :
    (captureFullPage inputTall idleState).canvasDims = some (1920, 3000) ∧
    (captureFullPage inputTall idleState).result =
      Except.ok { width := 1920, height := 3000 } ∧
    (captureFullPage inputTall idleState).trace =
      [(0, 0), (0, 1000), (0, 2000)] ∧
    (captureFullPage inputTall idleState).state.scrollX =
      idleState.scrollX ∧
    (captureFullPage inputTall idleState).state.scrollY =
      idleState.scrollY := by
  have h := captureFullPage_page_extent inputTall idleState rfl rfl
    (fun _ => ⟨"tile", rfl⟩)
  exact ⟨h.1, h.2, by rfl, rfl, rfl⟩

/-- C6 counterexample: a capture whose image acquisition succeeds but
whose history insert fails (injected storage failure) returns a
failure response without the image or filename — not a success — because
`saveScreenshot` rethrows and `handleCapture`'s catch turns the
rethrown error into `{ success: false, error }`. -/
theorem handleCapture_storage_failure_cex :
    (handleCapture CaptureMode.visible (some sampleTab)
        (Except.ok "data:image/png;base64,AAA")
        { success := true, dataUrl := "", error := none }
        false true 1 sampleFmtDate []).1.success = false ∧
    (handleCapture CaptureMode.visible (some sampleTab)
        (Except.ok "data:image/png;base64,AAA")
        { success := true, dataUrl := "", error := none }
        false true 1 sampleFmtDate []).1.error =
      some "Failed to save screenshot to storage" ∧
    (handleCapture CaptureMode.visible (some sampleTab)
        (Except.ok "data:image/png;base64,AAA")
        { success := true, dataUrl := "", error := none }
        false true 1 sampleFmtDate []).1.dataUrl = none := by
  exact ⟨rfl, rfl, rfl⟩

/-- C6 amended: for every capture whose image acquisition succeeds, a
history-insert failure makes the whole capture response a failure
carrying the storage error message (the error is logged and rethrown by
`saveScreenshot`), and the stored history is unchanged. -/
theorem handleCapture_storage_failure (mode : CaptureMode) (t : Tab) (i : Nat)
    (visibleResult : Except String String) (fullResponse : FullPageResponse)
    (downloadOk : Bool) (timestamp : Nat) (fmtDate : Nat → String)
    (screenshots : List ScreenshotData) (dataUrl : String)
    (hid : t.id = some i) (hi : i ≠ 0)
    (hacq : acquireDataUrl mode visibleResult fullResponse =
      Except.ok dataUrl) :
    handleCapture mode (some t) visibleResult fullResponse false downloadOk
        timestamp fmtDate screenshots =
      (failureResponse "Failed to save screenshot to storage", screenshots) := by
  simp [handleCapture, hid, hi, hacq, saveScreenshot]

/-- Witness for the amended C6 at a concrete input. -/
theorem handleCapture_storage_failure_witness :
    sampleTab.id = some 1 ∧
    acquireDataUrl CaptureMode.visible (Except.ok "data:image/png;base64,AAA")
        { success := true, dataUrl := "", error := none } =
      Except.ok "data:image/png;base64,AAA" ∧
    handleCapture CaptureMode.visible (some sampleTab)
        (Except.ok "data:image/png;base64,AAA")
        { success := true, dataUrl := "", error := none }
        false true 1 sampleFmtDate [sampleRecord] =
      (failureResponse "Failed to save screenshot to storage",
        [sampleRecord]) := by
  refine ⟨rfl, rfl, ?_⟩
  exact handleCapture_storage_failure CaptureMode.visible sampleTab 1
    (Except.ok "data:image/png;base64,AAA")
    { success := true, dataUrl := "", error := none }
    true 1 sampleFmtDate [sampleRecord] "data:image/png;base64,AAA"
    rfl (by decide) rfl

/-- C7 counterexample: a capture whose image acquisition and history
insert succeed but whose download fails returns a failure response —
not a success — because `downloadScreenshot` rethrows and
`handleCapture`'s catch turns the rethrown error into
`{ success: false, error }`. -/
theorem handleCapture_download_failure_cex :
    (handleCapture CaptureMode.visible (some sampleTab)
        (Except.ok "data:image/png;base64,AAA")
        { success := true, dataUrl := "", error := none }
        true false 1 sampleFmtDate []).1.success = false ∧
    (handleCapture CaptureMode.visible (some sampleTab)
        (Except.ok "data:image/png;base64,AAA")
        { success := true, dataUrl := "", error := none }
        true false 1 sampleFmtDate []).1.error =
      some "Failed to download screenshot" ∧
    (handleCapture CaptureMode.visible (some sampleTab)
        (Except.ok "data:image/png;base64,AAA")
        { success := true, dataUrl := "", error := none }
        true false 1 sampleFmtDate []).1.dataUrl = none := by
  exact ⟨rfl, rfl, rfl⟩

/-- C7 amended: for every capture whose image acquisition succeeds, a
download failure is propagated to the capture result: the response is a
failure carrying the download error message, although the record was
already persisted to history before the download was attempted. -/
theorem handleCapture_download_failure (mode : CaptureMode) (t : Tab) (i : Nat)
    (visibleResult : Except String String) (fullResponse : FullPageResponse)
    (timestamp : Nat) (fmtDate : Nat → String)
    (screenshots : List ScreenshotData) (dataUrl : String)
    (hid : t.id = some i) (hi : i ≠ 0)
    (hacq : acquireDataUrl mode visibleResult fullResponse =
      Except.ok dataUrl) :
    handleCapture mode (some t) visibleResult fullResponse true false
        timestamp fmtDate screenshots =
      (failureResponse "Failed to download screenshot",
        insertCapped (mkRecord dataUrl timestamp fmtDate t) screenshots) := by
  simp [handleCapture, hid, hi, hacq, saveScreenshot, downloadScreenshot]

/-- Witness for the amended C7 at a concrete input. -/
theorem handleCapture_download_failure_witness :
    sampleTab.id = some 1 ∧
    acquireDataUrl CaptureMode.visible (Except.ok "data:image/png;base64,AAA")
        { success := true, dataUrl := "", error := none } =
      Except.ok "data:image/png;base64,AAA" ∧
    handleCapture CaptureMode.visible (some sampleTab)
        (Except.ok "data:image/png;base64,AAA")
        { success := true, dataUrl := "", error := none }
        true false 1 sampleFmtDate [] =
      (failureResponse "Failed to download screenshot",
        [mkRecord "data:image/png;base64,AAA" 1 sampleFmtDate sampleTab]) := by
  refine ⟨rfl, rfl, ?_⟩
  exact handleCapture_download_failure CaptureMode.visible sampleTab 1
    (Except.ok "data:image/png;base64,AAA")
    { success := true, dataUrl := "", error := none }
    1 sampleFmtDate [] "data:image/png;base64,AAA"
    rfl (by decide) rfl
